import Mathlib

/- Shallow embedding of the optimkube cost optimizer (src/main.go).

   Modelling conventions: int64 resource quantities (CPU milli-values,
   memory byte values) become Int; float64 arithmetic on the exactly
   representable inputs occurring here becomes ℚ, and the IEEE outcome of
   dividing by a zero capacity (plus or minus infinity, NaN) is modelled
   explicitly by the FVal type.  Fallible provider calls become
   Except Unit results.  Free-text description/impact fields and
   wall-clock timestamps are presentation data referenced by no claim and
   are omitted from the records. -/

namespace OptimKube

/-- ASCII lower-casing of one character, as strings.ToLower acts on the
ASCII names appearing here. -/
def lowerChar (c : Char) : Char :=
  if 'A' ≤ c && c ≤ 'Z' then Char.ofNat (c.toNat + 32) else c

/-- lower-case a whole string. -/
def lowerStr (s : String) : String := String.mk (s.data.map lowerChar)

/-- the first list occurs at the start of the second list. -/
def leadsWith : List Char → List Char → Bool
  | [], _ => true
  | _ :: _, [] => false
  | a :: as, b :: bs => a == b && leadsWith as bs

/-- substring containment on character lists. -/
def hasSub : List Char → List Char → Bool
  | [], sub => sub.isEmpty
  | h :: t, sub => leadsWith sub (h :: t) || hasSub t sub

/-- strings.Contains(s, sub). -/
def strContains (s sub : String) : Bool := hasSub s.data sub.data

/-- the NodeCostPerHour pricing table built in NewCostOptimizer
(src/main.go lines 160-176), in source declaration order.  Go iterates the
map in unspecified order; the claims settled below are order-independent
or use inputs matching at most one key. -/
def NodeCostPerHour : List (String × ℚ) :=
  [("t3.micro", 104/10000), ("t3.small", 208/10000), ("t3.medium", 416/10000),
   ("t3.large", 832/10000), ("t3.xlarge", 1664/10000), ("t3.2xlarge", 3328/10000),
   ("m5.large", 96/1000), ("m5.xlarge", 192/1000), ("m5.2xlarge", 384/1000),
   ("m5.4xlarge", 768/1000), ("c5.large", 85/1000), ("c5.xlarge", 17/100),
   ("c5.2xlarge", 34/100), ("c5.4xlarge", 68/100), ("default", 1/10)]

/-- map lookup NodeCostPerHour[instanceType]. -/
def lookupRate (k : String) : Option ℚ :=
  (NodeCostPerHour.find? (fun p => p.1 == k)).map Prod.snd

/-- calculateNodeCost (src/main.go lines 422-437).  With an empty instance
type the raw node name is substring-matched case-sensitively against the
table keys; otherwise the instance type is looked up directly.  Both paths
fall back to the "default" rate 0.1. -/
def calculateNodeCost (nodeName instanceType : String) : ℚ :=
  if instanceType = "" then
    match NodeCostPerHour.find? (fun p => strContains nodeName p.1) with
    | some p => p.2
    | none => 1/10
  else
    match lookupRate instanceType with
    | some c => c
    | none => 1/10

/-- extractInstanceType (src/main.go lines 697-705): substring-matches the
lower-cased node name against the table keys. -/
def extractInstanceType (nodeName : String) : String :=
  match NodeCostPerHour.find? (fun p => strContains (lowerStr nodeName) p.1) with
  | some p => p.1
  | none => "default"

/-- value of a float64 expression: an exact rational, an infinity, or NaN. -/
inductive FVal where
  | q : ℚ → FVal
  | pinf : FVal
  | ninf : FVal
  | nan : FVal
  deriving DecidableEq

/-- float64(use)/float64(cap)*100 under IEEE semantics: a zero capacity
yields an infinity (nonzero use) or NaN (zero use) instead of crashing. -/
def utilPct (use cap : Int) : FVal :=
  if cap = 0 then (if 0 < use then .pinf else if use < 0 then .ninf else .nan)
  else .q ((use : ℚ) / (cap : ℚ) * 100)

/-- float comparison v < c for a finite threshold c: false for +Inf and NaN. -/
def FVal.ltQ : FVal → ℚ → Bool
  | .q x, c => decide (x < c)
  | .pinf, _ => false
  | .ninf, _ => true
  | .nan, _ => false

/-- float comparison v > c for a finite threshold c: true for +Inf, false
for -Inf and NaN. -/
def FVal.gtQ : FVal → ℚ → Bool
  | .q x, c => decide (c < x)
  | .pinf, _ => true
  | .ninf, _ => false
  | .nan, _ => false

structure K8sNode where
  name : String
  cpuCapacityMilli : Int
  memCapacityBytes : Int
  deriving DecidableEq

structure NodeUsage where
  name : String
  cpuUsageMilli : Int
  memUsageBytes : Int
  deriving DecidableEq

/-- a Recommendation (src/main.go lines 65-74); nspace is the Namespace
field (namespace is a Lean keyword). -/
structure Recommendation where
  rtype : String
  resource : String
  nspace : String
  savings : ℚ
  priority : String
  deriving DecidableEq

/-- the per-node loop body of analyzeNodes (src/main.go lines 248-283):
the underutilization rule followed by the overutilization rule. -/
def nodeRecs (n : K8sNode) (m : NodeUsage) : List Recommendation :=
  let cpuUtil := utilPct m.cpuUsageMilli n.cpuCapacityMilli
  let memUtil := utilPct m.memUsageBytes n.memCapacityBytes
  (if cpuUtil.ltQ 20 && memUtil.ltQ 30 then
    [{ rtype := "node_optimization", resource := n.name, nspace := "",
       savings := calculateNodeCost n.name "" * 24 * 30 * (7/10),
       priority := "medium" }]
   else []) ++
  (if cpuUtil.gtQ 90 || memUtil.gtQ 90 then
    [{ rtype := "node_scaling", resource := n.name, nspace := "",
       savings := -50, priority := "high" }]
   else [])

/-- analyzeNodes over successfully fetched lists: nodes without a matching
metrics sample are skipped. -/
def analyzeNodesCore (nodes : List K8sNode) (ms : List NodeUsage) : List Recommendation :=
  nodes.flatMap fun n =>
    match ms.find? (fun mm => mm.name == n.name) with
    | some m => nodeRecs n m
    | none => []

/-- analyzeNodes (src/main.go lines 219-286): either provider call failing
returns the empty recommendation list for the node kind. -/
def analyzeNodes (nodesRes : Except Unit (List K8sNode))
    (msRes : Except Unit (List NodeUsage)) : List Recommendation :=
  match nodesRes with
  | .error _ => []
  | .ok nodes =>
    match msRes with
    | .error _ => []
    | .ok ms => analyzeNodesCore nodes ms

structure ContainerSpec where
  cname : String
  hasRequests : Bool
  cpuRequestMilli : Int
  memRequestBytes : Int
  hasLimits : Bool
  cpuLimitMilli : Int
  memLimitBytes : Int
  deriving DecidableEq

structure K8sPod where
  name : String
  nspace : String
  phase : String
  containers : List ContainerSpec
  deriving DecidableEq

structure ContainerUsage where
  cpuUsageMilli : Int
  memUsageBytes : Int
  deriving DecidableEq

structure PodUsage where
  name : String
  nspace : String
  containers : List ContainerUsage
  deriving DecidableEq

/-- the per-container body of the analyzePods loop (src/main.go lines
329-365): the CPU rule then the memory rule, each guarded by a non-nil
Requests map, a positive request and usage below the integer half of the
request (Go int64 division truncates toward zero, hence Int.tdiv). -/
def containerRecs (p : K8sPod) (c : ContainerSpec) (u : ContainerUsage) : List Recommendation :=
  (if c.hasRequests && decide (0 < c.cpuRequestMilli) &&
      decide (u.cpuUsageMilli < c.cpuRequestMilli.tdiv 2) then
    [{ rtype := "resource_rightsizing", resource := p.nspace ++ "/" ++ p.name,
       nspace := p.nspace, savings := 15, priority := "low" }]
   else []) ++
  (if c.hasRequests && decide (0 < c.memRequestBytes) &&
      decide (u.memUsageBytes < c.memRequestBytes.tdiv 2) then
    [{ rtype := "resource_rightsizing", resource := p.nspace ++ "/" ++ p.name,
       nspace := p.nspace, savings := 10, priority := "low" }]
   else [])

def dfltContainer : ContainerSpec := ⟨"", false, 0, 0, false, 0, 0⟩

def dfltUsage : ContainerUsage := ⟨0, 0⟩

/-- the indexed container loop of analyzePods (src/main.go lines 322-327):
spec containers are visited by index and an index at or past the end of
the metric container list is skipped. -/
def containerLoop (p : K8sPod) (cs : List ContainerSpec) (mcs : List ContainerUsage) :
    List Recommendation :=
  (List.range cs.length).flatMap fun i =>
    if i < mcs.length then
      containerRecs p (cs.getD i dfltContainer) (mcs.getD i dfltUsage)
    else []

def podContainerRecs (p : K8sPod) (mcs : List ContainerUsage) : List Recommendation :=
  containerLoop p p.containers mcs

/-- analyzePods over successfully fetched lists: non-Running pods and pods
without a matching metrics entry are skipped. -/
def analyzePodsCore (pods : List K8sPod) (ms : List PodUsage) : List Recommendation :=
  pods.flatMap fun p =>
    if p.phase == "Running" then
      match ms.find? (fun mm => mm.name == p.name && mm.nspace == p.nspace) with
      | some m => podContainerRecs p m.containers
      | none => []
    else []

/-- analyzePods (src/main.go lines 288-370). -/
def analyzePods (podsRes : Except Unit (List K8sPod))
    (msRes : Except Unit (List PodUsage)) : List Recommendation :=
  match podsRes with
  | .error _ => []
  | .ok pods =>
    match msRes with
    | .error _ => []
    | .ok ms => analyzePodsCore pods ms

structure K8sDeployment where
  name : String
  nspace : String
  statusReplicas : Int
  containers : List ContainerSpec
  deriving DecidableEq

/-- the per-deployment body of analyzeDeployments (src/main.go lines
381-417). -/
def deploymentRecs (d : K8sDeployment) : List Recommendation :=
  (if decide (1 < d.statusReplicas) then
    [{ rtype := "horizontal_scaling", resource := d.nspace ++ "/" ++ d.name,
       nspace := d.nspace, savings := 25, priority := "medium" }]
   else []) ++
  (if d.containers.any (fun c => c.hasRequests || c.hasLimits) then []
   else
    [{ rtype := "resource_governance", resource := d.nspace ++ "/" ++ d.name,
       nspace := d.nspace, savings := 20, priority := "medium" }])

/-- analyzeDeployments (src/main.go lines 372-420). -/
def analyzeDeployments (res : Except Unit (List K8sDeployment)) : List Recommendation :=
  match res with
  | .error _ => []
  | .ok ds => ds.flatMap deploymentRecs

/-- the provider outcomes one analysis cycle observes. -/
structure CycleInput where
  nodesRes : Except Unit (List K8sNode)
  nodeMsRes : Except Unit (List NodeUsage)
  podsRes : Except Unit (List K8sPod)
  podMsRes : Except Unit (List PodUsage)
  deploysRes : Except Unit (List K8sDeployment)

/-- analyzeAndGenerateRecommendations (src/main.go lines 199-217): node,
pod and deployment recommendations concatenated in that order. -/
def analyzeAll (inp : CycleInput) : List Recommendation :=
  analyzeNodes inp.nodesRes inp.nodeMsRes ++
  analyzePods inp.podsRes inp.podMsRes ++
  analyzeDeployments inp.deploysRes

/-- the StartMonitoring loop (src/main.go lines 188-197): every cycle runs
unconditionally and wholesale-replaces the shared recommendation list. -/
def runMonitor (inputs : List CycleInput) (recs : List Recommendation) : List Recommendation :=
  inputs.foldl (fun _ inp => analyzeAll inp) recs

/-- events of the interleaving model of the scheduler: the monitoring
goroutine starting a cycle, a POST /api/optimize request spawning a cycle
goroutine (handleOptimize, src/main.go line 471), a trigger-spawned cycle
finishing, and the monitor cycle finishing. -/
inductive SchedEvent where
  | timerCycle : SchedEvent
  | trigger : SchedEvent
  | finishTrigger : SchedEvent
  | finishMonitor : SchedEvent
  deriving DecidableEq

/-- running counts in-flight analysis cycles across all goroutines;
monitorBusy records that the single monitoring goroutine is inside its own
sequential cycle. -/
structure SchedState where
  running : Nat
  monitorBusy : Bool
  deriving DecidableEq

/-- one scheduler step.  The monitoring loop is sequential with itself, but
handleOptimize spawns a new goroutine with no guard at all, so a trigger
always adds a concurrently running cycle. -/
def schedStep (s : SchedState) : SchedEvent → SchedState
  | .timerCycle =>
    if s.monitorBusy then s else { running := s.running + 1, monitorBusy := true }
  | .trigger => { s with running := s.running + 1 }
  | .finishTrigger => { s with running := s.running - 1 }
  | .finishMonitor => { running := s.running - 1, monitorBusy := false }

def schedRun (s : SchedState) : List SchedEvent → SchedState
  | [] => s
  | e :: es => schedRun (schedStep s e) es

/-- one row of the GetNodeMetrics response (src/main.go lines 516-569). -/
structure NodeMetricRec where
  name : String
  cpuUsage : ℚ
  memUsage : ℚ
  cpuCapacity : ℚ
  memCapacity : ℚ
  cpuUtilization : FVal
  memUtilization : FVal
  estimatedCost : ℚ
  instanceType : String
  deriving DecidableEq

def getNodeMetricsCore (nodes : List K8sNode) (ms : List NodeUsage) : List NodeMetricRec :=
  nodes.flatMap fun n =>
    match ms.find? (fun mm => mm.name == n.name) with
    | none => []
    | some m =>
      let itype := extractInstanceType n.name
      [{ name := n.name,
         cpuUsage := (m.cpuUsageMilli : ℚ) / 1000,
         memUsage := (m.memUsageBytes : ℚ) / (1024 * 1024 * 1024),
         cpuCapacity := (n.cpuCapacityMilli : ℚ) / 1000,
         memCapacity := (n.memCapacityBytes : ℚ) / (1024 * 1024 * 1024),
         cpuUtilization := utilPct m.cpuUsageMilli n.cpuCapacityMilli,
         memUtilization := utilPct m.memUsageBytes n.memCapacityBytes,
         estimatedCost := calculateNodeCost n.name itype * 24 * 30,
         instanceType := itype }]

/-- getNodeMetrics with its two provider calls. -/
def getNodeMetricsOf (inp : CycleInput) : List NodeMetricRec :=
  match inp.nodesRes, inp.nodeMsRes with
  | .ok nodes, .ok ms => getNodeMetricsCore nodes ms
  | _, _ => []

/-- one row of the GetPodMetrics response (src/main.go lines 571-650). -/
structure PodMetricRec where
  name : String
  nspace : String
  cpuUsage : ℚ
  memUsage : ℚ
  cpuRequest : ℚ
  memRequest : ℚ
  cpuLimit : ℚ
  memLimit : ℚ
  estimatedCost : ℚ
  deriving DecidableEq

def totalCpuUsage (mcs : List ContainerUsage) : Int :=
  (mcs.map ContainerUsage.cpuUsageMilli).sum

def totalMemUsage (mcs : List ContainerUsage) : Int :=
  (mcs.map ContainerUsage.memUsageBytes).sum

/-- requests are summed only over containers with a non-nil Requests map
and a nonzero quantity (src/main.go lines 614-631); adding zero is the
same, but the source guard is kept. -/
def totalCpuRequest (cs : List ContainerSpec) : Int :=
  (cs.map fun c =>
    if c.hasRequests && !(c.cpuRequestMilli == 0) then c.cpuRequestMilli else 0).sum

def totalMemRequest (cs : List ContainerSpec) : Int :=
  (cs.map fun c =>
    if c.hasRequests && !(c.memRequestBytes == 0) then c.memRequestBytes else 0).sum

def totalCpuLimit (cs : List ContainerSpec) : Int :=
  (cs.map fun c =>
    if c.hasLimits && !(c.cpuLimitMilli == 0) then c.cpuLimitMilli else 0).sum

def totalMemLimit (cs : List ContainerSpec) : Int :=
  (cs.map fun c =>
    if c.hasLimits && !(c.memLimitBytes == 0) then c.memLimitBytes else 0).sum

/-- estimatePodCost (src/main.go lines 707-713): request-based pricing at
fixed unit rates, independent of the node pricing table. -/
def estimatePodCost (cpuRequestMilli memRequestBytes : Int) : ℚ :=
  (cpuRequestMilli : ℚ) / 1000 * (5/100) * 24 * 30 +
  (memRequestBytes : ℚ) / (1024 * 1024 * 1024) * (1/100) * 24 * 30

/-- the per-pod body of the getPodMetrics loop (src/main.go lines 586-647). -/
def podMetricRow (ms : List PodUsage) (p : K8sPod) : List PodMetricRec :=
  if p.phase == "Running" then
    match ms.find? (fun mm => mm.name == p.name && mm.nspace == p.nspace) with
    | none => []
    | some m =>
      [{ name := p.name, nspace := p.nspace,
         cpuUsage := (totalCpuUsage m.containers : ℚ) / 1000,
         memUsage := (totalMemUsage m.containers : ℚ) / (1024 * 1024 * 1024),
         cpuRequest := (totalCpuRequest p.containers : ℚ) / 1000,
         memRequest := (totalMemRequest p.containers : ℚ) / (1024 * 1024 * 1024),
         cpuLimit := (totalCpuLimit p.containers : ℚ) / 1000,
         memLimit := (totalMemLimit p.containers : ℚ) / (1024 * 1024 * 1024),
         estimatedCost := estimatePodCost (totalCpuRequest p.containers)
           (totalMemRequest p.containers) }]
  else []

def getPodMetricsCore (pods : List K8sPod) (ms : List PodUsage) : List PodMetricRec :=
  pods.flatMap (podMetricRow ms)

/-- getPodMetrics with its two provider calls. -/
def getPodMetricsOf (inp : CycleInput) : List PodMetricRec :=
  match inp.podsRes, inp.podMsRes with
  | .ok pods, .ok ms => getPodMetricsCore pods ms
  | _, _ => []

/-- namespaceCosts[ns] += cost on a Go map, modelled as an association
list upsert. -/
def nsUpsert : List (String × ℚ) → String → ℚ → List (String × ℚ)
  | [], k, v => [(k, v)]
  | (k1, v1) :: t, k, v =>
    if k1 == k then (k1, v1 + v) :: t else (k1, v1) :: nsUpsert t k v

/-- the namespace-cost accumulation loop of generateCostSummary
(src/main.go lines 669-672). -/
def namespaceCostsOf (podMs : List PodMetricRec) : List (String × ℚ) :=
  podMs.foldl (fun acc p => nsUpsert acc p.nspace p.estimatedCost) []

structure ClusterCostSummary where
  totalMonthlyCost : ℚ
  computeCost : ℚ
  storageCost : ℚ
  wastedResources : ℚ
  potentialSavings : ℚ
  nodeCount : Nat
  podCount : Nat
  namespaceCosts : List (String × ℚ)
  recommendationCount : Nat
  deriving DecidableEq

/-- generateCostSummary (src/main.go lines 652-695) as a function of the
node rows, pod rows and recommendation list it reads. -/
def generateCostSummary (nodeMs : List NodeMetricRec) (podMs : List PodMetricRec)
    (recs : List Recommendation) : ClusterCostSummary :=
  let compute := (nodeMs.map NodeMetricRec.estimatedCost).sum
  let wasted := (nodeMs.map fun n =>
    if n.cpuUtilization.ltQ 50 || n.memUtilization.ltQ 50 then
      n.estimatedCost * (3/10)
    else 0).sum
  { totalMonthlyCost := compute + 100,
    computeCost := compute,
    storageCost := 100,
    wastedResources := wasted,
    potentialSavings := (recs.map Recommendation.savings).sum,
    nodeCount := nodeMs.length,
    podCount := podMs.length,
    namespaceCosts := namespaceCostsOf podMs,
    recommendationCount := recs.length }

/-- handleCostSummary served while the current recommendation list was
produced by an earlier cycle from snapshot cyc: generateCostSummary calls
getNodeMetrics and getPodMetrics afresh, observing the query-time snapshot
qry, and reads the shared recommendation list. -/
def querySummary (cyc qry : CycleInput) : ClusterCostSummary :=
  generateCostSummary (getNodeMetricsOf qry) (getPodMetricsOf qry) (analyzeAll cyc)

structure OptimizationAction where
  id : String
  atype : String
  resource : String
  nspace : String
  action : String
  status : String
  executedAt : Option Nat
  deriving DecidableEq

/-- the static catalog handleActions builds on every call (src/main.go
lines 482-495): one pending action with no execution timestamp. -/
def staticActions : List OptimizationAction :=
  [{ id := "1", atype := "scale_down", resource := "default/nginx-deployment",
     nspace := "default", action := "Scale deployment to 1 replica",
     status := "pending", executedAt := none }]

structure ExecResponse where
  status : String
  actionId : String
  deriving DecidableEq

/-- handleExecuteAction (src/main.go lines 501-514): logs and answers with
an "executed" response; the process holds no action store and the handler
changes nothing, which the explicitly threaded state makes visible. -/
def handleExecuteAction (s : List OptimizationAction) (actionId : String) :
    ExecResponse × List OptimizationAction :=
  ({ status := "executed", actionId := actionId }, s)

/-- handleActions (src/main.go lines 480-499): returns the static catalog
regardless of anything that happened before. -/
def handleActions (s : List OptimizationAction) :
    List OptimizationAction × List OptimizationAction :=
  (staticActions, s)

/-- rounding to two decimals, used only to state the displayed figure of
the spec scenario. -/
def round2 (x : ℚ) : ℚ := ((⌊x * 100 + 1/2⌋ : ℤ) : ℚ) / 100

/-- every recommendation nodeRecs emits names the node it was computed for. -/
theorem nodeRecs_resource {n : K8sNode} {m : NodeUsage} {r : Recommendation}
    (hr : r ∈ nodeRecs n m) : r.resource = n.name := by
  simp only [nodeRecs, List.mem_append, List.mem_ite_nil_right,
    List.mem_singleton] at hr
  rcases hr with ⟨-, rfl⟩ | ⟨-, rfl⟩ <;> rfl

/-- a float value below a finite threshold is not above a larger one. -/
theorem FVal.gtQ_eq_false_of_ltQ (v : FVal) (a b : ℚ) (hab : a ≤ b)
    (h : v.ltQ a = true) : v.gtQ b = false := by
  cases v with
  | q x =>
    simp only [FVal.ltQ, decide_eq_true_eq] at h
    simp only [FVal.gtQ, decide_eq_false_iff_not]
    linarith
  | pinf => simp [FVal.ltQ] at h
  | ninf => rfl
  | nan => rfl

/-- a node satisfying both underutilization thresholds produces exactly the
node_optimization recommendation (the overutilization rule cannot fire). -/
theorem nodeRecs_eq_opt (n : K8sNode) (m : NodeUsage)
    (hcpu : (utilPct m.cpuUsageMilli n.cpuCapacityMilli).ltQ 20 = true)
    (hmemu : (utilPct m.memUsageBytes n.memCapacityBytes).ltQ 30 = true) :
    nodeRecs n m =
      [{ rtype := "node_optimization", resource := n.name, nspace := "",
         savings := calculateNodeCost n.name "" * 24 * 30 * (7/10),
         priority := "medium" }] := by
  have h1 := FVal.gtQ_eq_false_of_ltQ _ 20 90 (by norm_num) hcpu
  have h2 := FVal.gtQ_eq_false_of_ltQ _ 30 90 (by norm_num) hmemu
  simp [nodeRecs, hcpu, hmemu, h1, h2]

/-- nodes whose name differs from nm contribute no recommendation whose
resource field is nm. -/
theorem filter_analyzeNodesCore_eq_nil (nodes : List K8sNode) (ms : List NodeUsage)
    (nm : String) (h : ∀ n ∈ nodes, n.name ≠ nm) :
    (analyzeNodesCore nodes ms).filter
      (fun r => r.rtype == "node_optimization" && r.resource == nm) = [] := by
  rw [List.filter_eq_nil_iff]
  intro r hr
  rw [analyzeNodesCore, List.mem_flatMap] at hr
  obtain ⟨n, hn, hrn⟩ := hr
  have hres : r.resource = n.name := by
    cases hf : ms.find? (fun mm => mm.name == n.name) with
    | some m =>
      simp only [hf] at hrn
      exact nodeRecs_resource hrn
    | none => simp only [hf] at hrn; cases hrn
  intro hand
  simp only [Bool.and_eq_true, beq_iff_eq] at hand
  exact h n hn (hres ▸ hand.2)

/-- upserting a cost into the namespace map raises the total of the map
values by exactly that cost. -/
theorem sum_nsUpsert (l : List (String × ℚ)) (k : String) (v : ℚ) :
    ((nsUpsert l k v).map Prod.snd).sum = (l.map Prod.snd).sum + v := by
  induction l with
  | nil => simp [nsUpsert]
  | cons h t ih =>
    obtain ⟨k1, v1⟩ := h
    rw [nsUpsert]
    by_cases hk : (k1 == k) = true
    · rw [if_pos hk]; simp; ring
    · rw [if_neg hk]; simp [ih]; ring

/-- folding pod costs into the namespace map adds up all pod costs. -/
theorem sum_nsFold (podMs : List PodMetricRec) : ∀ acc : List (String × ℚ),
    ((podMs.foldl (fun a p => nsUpsert a p.nspace p.estimatedCost) acc).map
      Prod.snd).sum =
      (acc.map Prod.snd).sum + (podMs.map PodMetricRec.estimatedCost).sum := by
  induction podMs with
  | nil => intro acc; simp
  | cons p t ih =>
    intro acc
    rw [List.foldl_cons, ih, sum_nsUpsert, List.map_cons, List.sum_cons]
    ring

/-- dropping elements whose row is empty does not change a flatMap. -/
theorem flatMap_filter_of_nil {α β : Type} (f : α → List β) (q : α → Bool)
    (h : ∀ a, q a = false → f a = []) :
    ∀ l : List α, (l.filter q).flatMap f = l.flatMap f := by
  intro l
  induction l with
  | nil => rfl
  | cons a t ih =>
    rw [List.filter_cons]
    cases hq : q a with
    | true => rw [if_pos rfl, List.flatMap_cons, List.flatMap_cons, ih]
    | false =>
      rw [if_neg (by simp), ih, List.flatMap_cons, h a hq, List.nil_append]

/-- a pod with no matching metrics entry produces no pod metrics row. -/
theorem podMetricRow_of_find?_none (ms : List PodUsage) (p : K8sPod)
    (hf : ms.find? (fun mm => mm.name == p.name && mm.nspace == p.nspace) = none) :
    podMetricRow ms p = [] := by
  rw [podMetricRow, hf]
  exact ite_self []

/-- dropping the pods that have no matching metrics entry does not change
the pod metrics report. -/
theorem getPodMetricsCore_filter (ms : List PodUsage) (pods : List K8sPod) :
    getPodMetricsCore
      (pods.filter fun p =>
        (ms.find? (fun mm => mm.name == p.name && mm.nspace == p.nspace)).isSome)
      ms = getPodMetricsCore pods ms := by
  rw [getPodMetricsCore, getPodMetricsCore]
  refine flatMap_filter_of_nil _ _ (fun p hp => ?_) pods
  refine podMetricRow_of_find?_none ms p ?_
  cases hf : ms.find? (fun mm => mm.name == p.name && mm.nspace == p.nspace) with
  | none => rfl
  | some m => rw [hf] at hp; simp at hp

/-- a singleton filter determines find?. -/
theorem find?_of_filter_eq_singleton {α : Type} (p : α → Bool) (x : α) :
    ∀ l : List α, l.filter p = [x] → l.find? p = some x := by
  intro l
  induction l with
  | nil => intro h; simp at h
  | cons a t ih =>
    intro h
    rw [List.filter_cons] at h
    by_cases hp : p a = true
    · rw [if_pos hp] at h
      injection h with h1 h2
      subst h1
      exact List.find?_cons_of_pos _ hp
    · rw [if_neg hp] at h
      rw [List.find?_cons_of_neg _ hp]
      exact ih h

/-- with pairwise distinct keys, membership determines the key lookup. -/
theorem find?_fst_of_mem : ∀ (l : List (String × ℚ)),
    (l.map Prod.fst).Nodup → ∀ {k : String} {r : ℚ}, (k, r) ∈ l →
    l.find? (fun p => p.1 == k) = some (k, r) := by
  intro l
  induction l with
  | nil => intro _ k r hm; cases hm
  | cons a t ih =>
    intro hnd k r hm
    rw [List.map_cons, List.nodup_cons] at hnd
    rcases List.mem_cons.mp hm with rfl | hmt
    · exact List.find?_cons_of_pos _ (by simp)
    · have hk : ¬ (a.1 == k) = true := by
        intro hbeq
        rw [beq_iff_eq] at hbeq
        exact hnd.1 (hbeq ▸ List.mem_map_of_mem Prod.fst hmt)
      have hstep : List.find? (fun p => p.1 == k) (a :: t) =
          List.find? (fun p => p.1 == k) t := List.find?_cons_of_neg t hk
      rw [hstep]
      exact ih hnd.2 hmt

theorem nodeCostKeysNodup : (NodeCostPerHour.map Prod.fst).Nodup := by decide

theorem nodeCostKeysNE : ∀ p ∈ NodeCostPerHour, p.1 ≠ "" := by decide

/-- a node metrics provider failure empties the node analysis whatever the
inventory call returned. -/
theorem analyzeNodes_err2 : ∀ a, analyzeNodes a (Except.error ()) = [] := by
  intro a; cases a <;> rfl

/-- a pod metrics provider failure empties the pod analysis whatever the
inventory call returned. -/
theorem analyzePods_err2 : ∀ a, analyzePods a (Except.error ()) = [] := by
  intro a; cases a <;> rfl

/-- the indexed container loop is the positional zip of spec containers
with metric containers. -/
theorem containerLoop_eq_zip (p : K8sPod) : ∀ (cs : List ContainerSpec)
    (mcs : List ContainerUsage),
    containerLoop p cs mcs =
      (cs.zip mcs).flatMap (fun cu => containerRecs p cu.1 cu.2) := by
  intro cs
  induction cs with
  | nil => intro mcs; rfl
  | cons c ct ih =>
    intro mcs
    rw [containerLoop, List.length_cons, List.range_succ_eq_map,
      List.flatMap_cons, List.flatMap_map]
    cases mcs with
    | nil =>
      simp [List.flatMap_eq_nil_iff]
    | cons u us =>
      have htail : ((List.range ct.length).flatMap fun i =>
          if i.succ < (u :: us).length then
            containerRecs p ((c :: ct).getD i.succ dfltContainer)
              ((u :: us).getD i.succ dfltUsage)
          else []) = containerLoop p ct us := by
        rw [containerLoop]
        congr 1
        funext i
        simp [Nat.succ_lt_succ_iff]
      rw [htail, ih]
      simp [List.zip_cons_cons]

/-- Claim C1: the code has no single-flight guard.  In the interleaving
model of the scheduler, a POST /api/optimize trigger unconditionally adds
a running cycle, so a trigger arriving while the timer cycle (or another
trigger cycle) is running yields two analysis cycles running concurrently
against the shared recommendation state, contradicting the required
coalescing/serialization. -/
theorem c1_no_single_flight :
    (∀ s : SchedState, (schedStep s SchedEvent.trigger).running = s.running + 1) ∧
    (schedRun ⟨0, false⟩ [SchedEvent.timerCycle, SchedEvent.trigger]).running = 2 ∧
    (schedRun ⟨0, false⟩ [SchedEvent.trigger, SchedEvent.trigger]).running = 2 :=
  ⟨fun _ => rfl, rfl, rfl⟩

/-- Claim C2 (counterexample): the summary's node figures come from the
query-time snapshot, not from the snapshot that produced the current
recommendation list: with a one-node cycle snapshot and an empty
query-time snapshot, the summary reports node_count 0 while the
cycle snapshot holds one reported node. -/
theorem c2_counterexample :
    (querySummary
        ⟨Except.ok [⟨"n1", 1000, 1000⟩], Except.ok [⟨"n1", 200, 200⟩],
         Except.ok [], Except.ok [], Except.ok []⟩
        ⟨Except.ok [], Except.ok [], Except.ok [], Except.ok [], Except.ok []⟩).nodeCount ≠
      (getNodeMetricsOf
        ⟨Except.ok [⟨"n1", 1000, 1000⟩], Except.ok [⟨"n1", 200, 200⟩],
         Except.ok [], Except.ok [], Except.ok []⟩).length := by
  intro h
  rw [show (querySummary
      ⟨Except.ok [⟨"n1", 1000, 1000⟩], Except.ok [⟨"n1", 200, 200⟩],
       Except.ok [], Except.ok [], Except.ok []⟩
      ⟨Except.ok [], Except.ok [], Except.ok [], Except.ok [], Except.ok []⟩).nodeCount = 0
    from rfl] at h
  rw [show (getNodeMetricsOf
      ⟨Except.ok [⟨"n1", 1000, 1000⟩], Except.ok [⟨"n1", 200, 200⟩],
       Except.ok [], Except.ok [], Except.ok []⟩).length = 1 from rfl] at h
  cases h

/-- Claim C2 (amended): within one summary computation the
recommendation_count and potential savings agree with the recommendation
list the handler reads, while the node/pod/cost figures are derived from
the fresh inventory/metrics snapshot fetched at query time, which is in
general a different snapshot than the one that produced the current
recommendations. -/
theorem c2_summary_snapshot_amended :
    ∀ cyc qry : CycleInput,
      (querySummary cyc qry).recommendationCount = (analyzeAll cyc).length ∧
      (querySummary cyc qry).potentialSavings =
        ((analyzeAll cyc).map Recommendation.savings).sum ∧
      (querySummary cyc qry).nodeCount = (getNodeMetricsOf qry).length ∧
      (querySummary cyc qry).podCount = (getPodMetricsOf qry).length ∧
      (querySummary cyc qry).computeCost =
        ((getNodeMetricsOf qry).map NodeMetricRec.estimatedCost).sum :=
  fun _ _ => ⟨rfl, rfl, rfl, rfl, rfl⟩

/-- Claim C6: a failing provider call empties exactly its own resource
kind's recommendations while the other kinds still contribute, and the
monitoring loop re-arms after every cycle, so the state after any cycle
sequence is determined by the last cycle alone, whatever failures earlier
cycles saw. -/
theorem c6_provider_failure_isolation :
    (∀ inp : CycleInput, analyzeAll { inp with nodesRes := Except.error () } =
      analyzePods inp.podsRes inp.podMsRes ++ analyzeDeployments inp.deploysRes) ∧
    (∀ inp : CycleInput, analyzeAll { inp with nodeMsRes := Except.error () } =
      analyzePods inp.podsRes inp.podMsRes ++ analyzeDeployments inp.deploysRes) ∧
    (∀ inp : CycleInput, analyzeAll { inp with podsRes := Except.error () } =
      analyzeNodes inp.nodesRes inp.nodeMsRes ++ analyzeDeployments inp.deploysRes) ∧
    (∀ inp : CycleInput, analyzeAll { inp with podMsRes := Except.error () } =
      analyzeNodes inp.nodesRes inp.nodeMsRes ++ analyzeDeployments inp.deploysRes) ∧
    (∀ inp : CycleInput, analyzeAll { inp with deploysRes := Except.error () } =
      analyzeNodes inp.nodesRes inp.nodeMsRes ++
        analyzePods inp.podsRes inp.podMsRes) ∧
    (∀ (inputs : List CycleInput) (lastInp : CycleInput) (r0 : List Recommendation),
      runMonitor (inputs ++ [lastInp]) r0 = analyzeAll lastInp) := by
  refine ⟨fun inp => ?_, fun inp => ?_, fun inp => ?_, fun inp => ?_,
    fun inp => ?_, fun inputs lastInp r0 => ?_⟩
  · simp only [analyzeAll]
    rfl
  · simp only [analyzeAll]
    rw [analyzeNodes_err2 inp.nodesRes, List.nil_append]
  · simp only [analyzeAll]
    rw [show analyzePods (Except.error ()) inp.podMsRes = [] from rfl,
      List.append_nil]
  · simp only [analyzeAll]
    rw [analyzePods_err2 inp.podsRes, List.append_nil]
  · simp only [analyzeAll]
    rw [show analyzeDeployments (Except.error ()) = [] from rfl, List.append_nil]
  · rw [runMonitor, List.foldl_append]
    rfl

/-- Claim C7: the namespace-cost mapping is the grouping-by-namespace of
the reported pods' estimated costs: its values sum exactly to the total
estimated cost over the reported pods, and a pod with no matching metrics
entry contributes nothing (filtering such pods away leaves the report
unchanged). -/
theorem c7_namespace_cost_sum :
    (∀ podMs : List PodMetricRec,
      ((namespaceCostsOf podMs).map Prod.snd).sum =
        (podMs.map PodMetricRec.estimatedCost).sum) ∧
    (∀ (pods : List K8sPod) (ms : List PodUsage),
      getPodMetricsCore
        (pods.filter fun p =>
          (ms.find? (fun mm => mm.name == p.name && mm.nspace == p.nspace)).isSome)
        ms = getPodMetricsCore pods ms) := by
  constructor
  · intro podMs
    rw [namespaceCostsOf, sum_nsFold]
    simp
  · intro pods ms
    exact getPodMetricsCore_filter ms pods

/-- Claim C8 (counterexample): executing action "1" answers with status
"executed", yet a subsequent ListActions still reports the action as
"pending" with no execution timestamp, because handleExecuteAction mutates
no stored action. -/
theorem c8_counterexample :
    (handleExecuteAction staticActions "1").1.status = "executed" ∧
    ((handleActions (handleExecuteAction staticActions "1").2).1.map
      OptimizationAction.status) = ["pending"] ∧
    ((handleActions (handleExecuteAction staticActions "1").2).1.map
      OptimizationAction.executedAt) = [none] :=
  ⟨rfl, rfl, rfl⟩

/-- Claim C8 (amended): ExecuteAction(id) returns an "executed" response
for the given id but performs no state change whatsoever (and no cluster
mutation); ListActions always returns the static pending catalog. -/
theorem c8_execute_is_stub :
    ∀ (s : List OptimizationAction) (aid : String),
      handleExecuteAction s aid = ({ status := "executed", actionId := aid }, s) ∧
      (handleActions (handleExecuteAction s aid).2).1 = staticActions :=
  fun _ _ => ⟨rfl, rfl⟩

/-- Claim C3: a node with a matching metrics sample, CPU utilization below
20% and memory utilization below 30% yields exactly one node_optimization
recommendation, with priority medium and savings equal to the resolved
hourly rate times 24 times 30 times 0.7. -/
theorem c3_node_optimization (nodes : List K8sNode) (ms : List NodeUsage)
    (n : K8sNode) (m : NodeUsage)
    (hn : n ∈ nodes)
    (hnodup : (nodes.map K8sNode.name).Nodup)
    (hfind : ms.find? (fun mm => mm.name == n.name) = some m)
    (hcpu : (utilPct m.cpuUsageMilli n.cpuCapacityMilli).ltQ 20 = true)
    (hmemu : (utilPct m.memUsageBytes n.memCapacityBytes).ltQ 30 = true) :
    (analyzeNodesCore nodes ms).filter
        (fun r => r.rtype == "node_optimization" && r.resource == n.name) =
      [{ rtype := "node_optimization", resource := n.name, nspace := "",
         savings := calculateNodeCost n.name "" * 24 * 30 * (7/10),
         priority := "medium" }] := by
  obtain ⟨l1, l2, rfl⟩ := List.append_of_mem hn
  rw [List.map_append, List.map_cons] at hnodup
  have hd := List.nodup_append.mp hnodup
  have h1 : ∀ x ∈ l1, x.name ≠ n.name := by
    intro x hx hEq
    exact hd.2.2 (List.mem_map_of_mem K8sNode.name hx)
      (hEq ▸ List.mem_cons_self n.name (l2.map K8sNode.name))
  have h2 : ∀ x ∈ l2, x.name ≠ n.name := by
    intro x hx hEq
    exact (List.nodup_cons.mp hd.2.1).1 (hEq ▸ List.mem_map_of_mem K8sNode.name hx)
  rw [analyzeNodesCore, List.flatMap_append, List.flatMap_cons,
    List.filter_append, List.filter_append]
  rw [show (l1.flatMap fun nd =>
      match ms.find? (fun mm => mm.name == nd.name) with
      | some mm => nodeRecs nd mm
      | none => []).filter
        (fun r => r.rtype == "node_optimization" && r.resource == n.name) = []
    from filter_analyzeNodesCore_eq_nil l1 ms n.name h1]
  rw [show (l2.flatMap fun nd =>
      match ms.find? (fun mm => mm.name == nd.name) with
      | some mm => nodeRecs nd mm
      | none => []).filter
        (fun r => r.rtype == "node_optimization" && r.resource == n.name) = []
    from filter_analyzeNodesCore_eq_nil l2 ms n.name h2]
  simp only [hfind]
  rw [nodeRecs_eq_opt n m hcpu hmemu]
  simp

/-- Claim C3 (witness): the spec's scenario A — a node whose name matches
"t3.large" (hourly rate 0.0832), CPU usage 150m of 2000m and memory usage
500Mi of 8Gi — yields exactly one node_optimization recommendation and
0.0832 times 24 times 30 times 0.7 rounds to 41.93. -/
theorem c3_witness :
    (analyzeNodesCore [⟨"ip-t3.large-1", 2000, 8*1024*1024*1024⟩]
        [⟨"ip-t3.large-1", 150, 500*1024*1024⟩]).filter
        (fun r => r.rtype == "node_optimization" &&
          r.resource == (⟨"ip-t3.large-1", 2000, 8*1024*1024*1024⟩ : K8sNode).name) =
      [{ rtype := "node_optimization",
         resource := (⟨"ip-t3.large-1", 2000, 8*1024*1024*1024⟩ : K8sNode).name,
         nspace := "",
         savings := calculateNodeCost
           (⟨"ip-t3.large-1", 2000, 8*1024*1024*1024⟩ : K8sNode).name "" * 24 * 30 * (7/10),
         priority := "medium" }] ∧
    calculateNodeCost "ip-t3.large-1" "" = 832/10000 ∧
    round2 (832/10000 * 24 * 30 * (7/10)) = 4193/100 :=
  ⟨c3_node_optimization [⟨"ip-t3.large-1", 2000, 8*1024*1024*1024⟩]
      [⟨"ip-t3.large-1", 150, 500*1024*1024⟩]
      ⟨"ip-t3.large-1", 2000, 8*1024*1024*1024⟩
      ⟨"ip-t3.large-1", 150, 500*1024*1024⟩
      (by decide) (by decide) rfl
      (by norm_num [utilPct, FVal.ltQ])
      (by norm_num [utilPct, FVal.ltQ]),
    rfl, by norm_num [round2]⟩

/-- Claim C4 (counterexample): with CPU request 5m and usage 2m the usage
is below half the request (2 < 2.5), yet the code emits no recommendation,
because it compares against the truncated integer half 5 div 2 = 2. -/
theorem c4_counterexample :
    ((2:ℚ) < (5:ℚ)/2) ∧
    analyzePodsCore [⟨"odd-1", "default", "Running", [⟨"app", true, 5, 0, false, 0, 0⟩]⟩]
      [⟨"odd-1", "default", [⟨2, 0⟩]⟩] = [] := by
  constructor
  · norm_num
  · rfl

/-- Claim C4 (amended): for a container with a non-nil requests map, one
CPU rightsizing recommendation (savings 15, priority low) is produced iff
the CPU request is positive and usage is strictly below the truncated
integer half of the request, and independently one memory rightsizing
recommendation (savings 10, priority low) iff the analogous memory
condition holds. -/
theorem c4_rightsizing_amended (p : K8sPod) (c : ContainerSpec) (u : ContainerUsage)
    (hreq : c.hasRequests = true) :
    containerRecs p c u =
      (if 0 < c.cpuRequestMilli ∧ u.cpuUsageMilli < c.cpuRequestMilli.tdiv 2 then
        [{ rtype := "resource_rightsizing", resource := p.nspace ++ "/" ++ p.name,
           nspace := p.nspace, savings := 15, priority := "low" }]
       else []) ++
      (if 0 < c.memRequestBytes ∧ u.memUsageBytes < c.memRequestBytes.tdiv 2 then
        [{ rtype := "resource_rightsizing", resource := p.nspace ++ "/" ++ p.name,
           nspace := p.nspace, savings := 10, priority := "low" }]
       else []) := by
  rw [containerRecs, hreq]
  by_cases h1 : 0 < c.cpuRequestMilli ∧ u.cpuUsageMilli < c.cpuRequestMilli.tdiv 2 <;>
    by_cases h2 : 0 < c.memRequestBytes ∧ u.memUsageBytes < c.memRequestBytes.tdiv 2 <;>
    simp [h1, h2, Bool.and_eq_true, decide_eq_true_eq]

/-- Claim C4 (witness): the spec's scenario B — CPU request 500m, usage
150m, no memory request — produces exactly the one CPU rightsizing
recommendation with savings 15 and priority low. -/
theorem c4_witness :
    (containerRecs ⟨"web-1", "default", "Running", [⟨"app", true, 500, 0, false, 0, 0⟩]⟩
        ⟨"app", true, 500, 0, false, 0, 0⟩ ⟨150, 0⟩ =
      (if (0:Int) < 500 ∧ (150:Int) < Int.tdiv 500 2 then
        [{ rtype := "resource_rightsizing", resource := "default" ++ "/" ++ "web-1",
           nspace := "default", savings := 15, priority := "low" }]
       else []) ++
      (if (0:Int) < 0 ∧ (0:Int) < Int.tdiv 0 2 then
        [{ rtype := "resource_rightsizing", resource := "default" ++ "/" ++ "web-1",
           nspace := "default", savings := 10, priority := "low" }]
       else [])) ∧
    containerRecs ⟨"web-1", "default", "Running", [⟨"app", true, 500, 0, false, 0, 0⟩]⟩
        ⟨"app", true, 500, 0, false, 0, 0⟩ ⟨150, 0⟩ =
      [{ rtype := "resource_rightsizing", resource := "default/web-1",
         nspace := "default", savings := 15, priority := "low" }] :=
  ⟨c4_rightsizing_amended
      ⟨"web-1", "default", "Running", [⟨"app", true, 500, 0, false, 0, 0⟩]⟩
      ⟨"app", true, 500, 0, false, 0, 0⟩ ⟨150, 0⟩ rfl,
    by norm_num [containerRecs, show Int.tdiv 500 2 = 250 from rfl,
      show ("default" ++ "/" ++ "web-1" : String) = "default/web-1" from rfl]⟩

/-- Claim C5 (counterexample): a node with zero memory capacity and
positive memory usage is not excluded from memory-based rule evaluation:
the IEEE quotient is plus infinity, the memory overutilization check
passes, and a node_scaling recommendation fires even though the CPU
utilization (50%) triggers nothing on its own. -/
theorem c5_counterexample :
    nodeRecs ⟨"m5.large-z", 2000, 0⟩ ⟨"m5.large-z", 1000, 100⟩ =
      [{ rtype := "node_scaling", resource := "m5.large-z", nspace := "",
         savings := -50, priority := "high" }] ∧
    (utilPct 1000 2000).gtQ 90 = false ∧
    (utilPct 1000 2000).ltQ 20 = false := by
  refine ⟨?_, ?_, ?_⟩
  · norm_num [nodeRecs, utilPct, FVal.ltQ, FVal.gtQ]
  · norm_num [utilPct, FVal.gtQ]
  · norm_num [utilPct, FVal.ltQ]

/-- Claim C5 (amended): a zero memory capacity never crashes and never
divides — the utilization value is NaN (zero usage) or plus infinity
(positive usage); such a node can never receive node_optimization, and it
receives node_scaling iff its CPU utilization exceeds 90% or its memory
usage is positive, so it is not excluded from memory-based overutilization
evaluation; CPU-based evaluation is unaffected. -/
theorem c5_zero_capacity_amended (n : K8sNode) (m : NodeUsage)
    (hcap : n.memCapacityBytes = 0) (huse : 0 ≤ m.memUsageBytes) :
    nodeRecs n m =
      if (utilPct m.cpuUsageMilli n.cpuCapacityMilli).gtQ 90 = true ∨
          0 < m.memUsageBytes then
        [{ rtype := "node_scaling", resource := n.name, nspace := "",
           savings := -50, priority := "high" }]
      else [] := by
  rw [nodeRecs, hcap]
  rcases lt_or_eq_of_le huse with hpos | hzero
  · rw [show utilPct m.memUsageBytes 0 = FVal.pinf from by
      rw [utilPct, if_pos rfl, if_pos hpos]]
    simp [FVal.ltQ, FVal.gtQ, hpos]
  · rw [show utilPct m.memUsageBytes 0 = FVal.nan from by
      rw [utilPct, if_pos rfl, if_neg (by omega), if_neg (by omega)]]
    have hnotpos : ¬ 0 < m.memUsageBytes := by omega
    simp [FVal.ltQ, FVal.gtQ, hnotpos]

/-- Claim C5 (witness): the amended statement evaluated on a node with
zero memory capacity, memory usage 100 and CPU utilization 50%. -/
theorem c5_witness :
    nodeRecs ⟨"m5.large-z", 2000, 0⟩ ⟨"m5.large-z", 1000, 100⟩ =
      (if (utilPct (1000:Int) (2000:Int)).gtQ 90 = true ∨ (0:Int) < 100 then
        [{ rtype := "node_scaling", resource := "m5.large-z", nspace := "",
           savings := -50, priority := "high" }]
      else []) :=
  c5_zero_capacity_amended ⟨"m5.large-z", 2000, 0⟩ ⟨"m5.large-z", 1000, 100⟩
    rfl (by norm_num)

/-- Claim C9 (counterexample): the two instance-type resolution paths
disagree: for node name "T3.LARGE-1" the recommendation path
(calculateNodeCost with empty instance type, case-sensitive match on the
raw name) falls back to the default rate 0.1, while the GetNodeMetrics
path (extractInstanceType lower-cases the name first) resolves t3.large
and returns 0.0832. -/
theorem c9_counterexample :
    calculateNodeCost "T3.LARGE-1" "" = 1/10 ∧
    calculateNodeCost "T3.LARGE-1" (extractInstanceType "T3.LARGE-1") = 832/10000 ∧
    calculateNodeCost "T3.LARGE-1" "" ≠
      calculateNodeCost "T3.LARGE-1" (extractInstanceType "T3.LARGE-1") := by
  refine ⟨rfl, rfl, ?_⟩
  intro h
  rw [show calculateNodeCost "T3.LARGE-1" "" = 1/10 from rfl,
    show calculateNodeCost "T3.LARGE-1" (extractInstanceType "T3.LARGE-1") =
      832/10000 from rfl] at h
  norm_num at h

/-- Claim C9 (amended): the two resolution paths agree whenever the raw
node name and its lower-casing each match exactly one pricing-table entry
and it is the same entry: both then return that entry's rate. -/
theorem c9_rate_paths_amended (nodeName k : String) (r : ℚ)
    (h1 : NodeCostPerHour.filter (fun p => strContains nodeName p.1) = [(k, r)])
    (h2 : NodeCostPerHour.filter (fun p => strContains (lowerStr nodeName) p.1) =
      [(k, r)]) :
    calculateNodeCost nodeName "" = r ∧
    calculateNodeCost nodeName (extractInstanceType nodeName) = r := by
  have hf1 := find?_of_filter_eq_singleton _ _ _ h1
  have hf2 := find?_of_filter_eq_singleton _ _ _ h2
  have hmem : (k, r) ∈ NodeCostPerHour := by
    have : (k, r) ∈ NodeCostPerHour.filter (fun p => strContains nodeName p.1) := by
      rw [h1]; exact List.mem_singleton_self _
    exact List.mem_of_mem_filter this
  have hkne : k ≠ "" := nodeCostKeysNE (k, r) hmem
  constructor
  · rw [calculateNodeCost, if_pos rfl]
    simp only [hf1]
  · rw [extractInstanceType]
    simp only [hf2]
    rw [calculateNodeCost, if_neg hkne, lookupRate,
      find?_fst_of_mem NodeCostPerHour nodeCostKeysNodup hmem]
    rfl

/-- Claim C9 (witness): for the all-lowercase node name "ip-t3.large-1"
both resolution paths return the t3.large rate 0.0832. -/
theorem c9_witness :
    calculateNodeCost "ip-t3.large-1" "" = 832/10000 ∧
    calculateNodeCost "ip-t3.large-1" (extractInstanceType "ip-t3.large-1") =
      832/10000 :=
  c9_rate_paths_amended "ip-t3.large-1" "t3.large" (832/10000) rfl rfl

/-- Claim C10: the rightsizing rules pair the i-th spec container with the
i-th container-metrics entry — the indexed loop equals the positional zip
of the two lists — so spec containers at an index at or past the end of
the metrics list are skipped without failing the pod. -/
theorem c10_positional_pairing :
    ∀ (p : K8sPod) (mcs : List ContainerUsage),
      podContainerRecs p mcs =
        (p.containers.zip mcs).flatMap (fun cu => containerRecs p cu.1 cu.2) :=
  fun p mcs => containerLoop_eq_zip p p.containers mcs

end OptimKube
